import Mathlib

/-!
Verification of the byte-layout utility module of a WebGPU examples
repository (`utils.ts`): row padding for readback copies, buffer-size
rounding, PNG row unpacking, texture-format metadata lookup, and the
mip-chain upload-region layout used by `createTextureWithData`.

The TypeScript functions are embedded shallowly:
* JS numbers holding byte counts and pixel sizes are modelled as `Nat`
  (all values in this module are non-negative integers well below 2^31,
  where JS arithmetic and `Nat` arithmetic agree); the two bitwise
  operations (`>>` and `& ~3`) are modelled with their 32-bit semantics
  made explicit.
* `Uint8Array` contents are modelled as `List Nat`.
* A JS expression that throws at runtime (destructuring `undefined`,
  indexing into `undefined`) is modelled by an `Option` result of `none`;
  a field that is merely `undefined` (but does not throw) is an
  `Option`-typed field of value `none`.
* The GPU device calls (`createBuffer`, `createTexture`, `writeTexture`,
  `copyTextureToBuffer`) are external effects; the embedding keeps the
  pure *plan* those calls receive (sizes, strides, offsets, regions).
-/

/-- `Dimensions` from `utils.ts`: logical pixel extent. -/
structure Dimensions where
  width : Nat
  height : Nat
deriving Repr, DecidableEq

/-- `Padding` from `utils.ts`: unpadded and padded bytes per row. -/
structure Padding where
  unpadded : Nat
  padded : Nat
deriving Repr, DecidableEq

/-- `getRowPadding` from `utils.ts`: rounds `width * 4` up to the next
multiple of the 256-byte copy alignment (`unpadded % align < align`, so the
`Nat` subtraction never truncates). -/
def getRowPadding (width : Nat) : Padding :=
  let bytesPerPixel := 4
  let unpaddedBytesPerRow := width * bytesPerPixel
  let align := 256
  let paddedBytesPerRowPadding := (align - unpaddedBytesPerRow % align) % align
  let paddedBytesPerRow := unpaddedBytesPerRow + paddedBytesPerRowPadding
  { unpadded := unpaddedBytesPerRow, padded := paddedBytesPerRow }

/-- The pure plan of `createCapture` from `utils.ts`: the sizes and format
it passes to `device.createBuffer` / `device.createTexture`. -/
structure CreateCapturePlan where
  outputBufferSize : Nat
  textureWidth : Nat
  textureHeight : Nat
  textureFormat : String
deriving Repr, DecidableEq

/-- `createCapture` from `utils.ts` (the device calls' arguments). -/
def createCapture (dimensions : Dimensions) : CreateCapturePlan :=
  let p := getRowPadding dimensions.width
  { outputBufferSize := p.padded * dimensions.height
    textureWidth := dimensions.width
    textureHeight := dimensions.height
    textureFormat := "rgba8unorm-srgb" }

/-- The pure plan of `copyToBuffer` from `utils.ts`: the layout it passes
to `encoder.copyTextureToBuffer`. -/
structure CopyToBufferPlan where
  bytesPerRow : Nat
  rowsPerImage : Nat
  extent : Dimensions
deriving Repr, DecidableEq

/-- `copyToBuffer` from `utils.ts` (the copy command's arguments). -/
def copyToBuffer (dimensions : Dimensions) : CopyToBufferPlan :=
  let p := getRowPadding dimensions.width
  { bytesPerRow := p.padded, rowsPerImage := 0, extent := dimensions }

/-- `Uint8Array.prototype.set(src, off)` on the list model: overwrite
`dst[off .. off + src.length)` with `src` (JS throws when the source does
not fit; all uses below stay in bounds, where this expression is exact). -/
def typedArraySet (dst src : List Nat) (off : Nat) : List Nat :=
  dst.take off ++ src ++ dst.drop (off + src.length)

/-- The row-unpacking loop of `createPng` from `utils.ts`: the output
`Uint8Array(unpadded * height)` starts zero-filled; row `i` is
`inputBuffer.slice(i*padded, (i+1)*padded).slice(0, unpadded)` written at
offset `i * unpadded` (`slice(a, b)` is `drop a` then `take (b - a)`). -/
def createPngUnpack (inputBuffer : List Nat) (dimensions : Dimensions) : List Nat :=
  let p := getRowPadding dimensions.width
  (List.range dimensions.height).foldl
    (fun outputBuffer i =>
      typedArraySet outputBuffer
        (((inputBuffer.drop (i * p.padded)).take p.padded).take p.unpadded)
        (i * p.unpadded))
    (List.replicate (p.unpadded * dimensions.height) 0)

/-- JS `~3` is the 32-bit two's complement `-4`; `&` acts on 32 bits, so on
a non-negative value below `2^31` the expression `x & ~3` is
`x &&& 0xFFFFFFFC`. -/
def jsAndNotAlignMask (m : Nat) : Nat := Nat.land m 0xFFFFFFFC

/-- The allocation size computed by `createBufferInit` in `utils.ts`:
`Math.max((byteLength + alignMask) & ~alignMask, 4)` with `alignMask = 4 - 1`. -/
def createBufferInitPaddedSize (contentsByteLength : Nat) : Nat :=
  let alignMask := 4 - 1
  max (jsAndNotAlignMask (contentsByteLength + alignMask)) 4

/-- The pure plan of `createBufferInit` from `utils.ts`: the size passed to
`device.createBuffer` and the bytes of the mapped range after
`data.set(contents)` (a buffer mapped at creation is zero-filled; `set`
with no offset writes at offset 0). -/
structure CreateBufferInitPlan where
  size : Nat
  mappedContents : List Nat
deriving Repr, DecidableEq

/-- `createBufferInit` from `utils.ts` (device call plus mapped-range write). -/
def createBufferInit (contents : List Nat) : CreateBufferInitPlan :=
  let paddedSize := createBufferInitPaddedSize contents.length
  { size := paddedSize
    mappedContents := typedArraySet (List.replicate paddedSize 0) contents 0 }

/-- `GPUExtent3DDict`: `width` is required, `height` and
`depthOrArrayLayers` are optional (`undefined` is `none`). -/
structure GPUExtent3DDict where
  width : Nat
  height : Option Nat
  depthOrArrayLayers : Option Nat
deriving Repr, DecidableEq, Inhabited

/-- `GPUExtent3D`: an array `[w, h?, d?]` (with at least one element, per
the WebGPU contract) or a dict. -/
inductive GPUExtent3D where
  | arr (w : Nat) (h d : Option Nat)
  | dict (e : GPUExtent3DDict)
deriving Repr, DecidableEq, Inhabited

/-- `GPUTextureDimension`: the string union `"1d" | "2d" | "3d"`. -/
inductive GPUTextureDimension where
  | d1
  | d2
  | d3
deriving Repr, DecidableEq

/-- The fields of `GPUTextureDescriptor` read by the layout code
(`size`, optional `mipLevelCount`, optional `dimension`, `format`;
`GPUTextureFormat` is a string union, modelled as `String`). -/
structure GPUTextureDescriptor where
  size : GPUExtent3D
  mipLevelCount : Option Nat
  dimension : Option GPUTextureDimension
  format : String
deriving Repr, DecidableEq

/-- `textureDimensionArrayLayerCount` from `utils.ts`. -/
def textureDimensionArrayLayerCount (texture : GPUTextureDescriptor) : Nat :=
  match texture.dimension with
  | some .d1 | some .d3 => 1
  | none | some .d2 =>
    match texture.size with
    | .arr _ _ d => d.getD 1
    | .dict e => e.depthOrArrayLayers.getD 1

def GPUTextureUsage.COPY_SRC : Nat := 0x01

def GPUTextureUsage.COPY_DST : Nat := 0x02

def GPUTextureUsage.TEXTURE_BINDING : Nat := 0x04

def GPUTextureUsage.STORAGE_BINDING : Nat := 0x08

def GPUTextureUsage.RENDER_ATTACHMENT : Nat := 0x10

/-- `basic` usage flags from `utils.ts`. -/
def basicUsage : Nat :=
  GPUTextureUsage.COPY_SRC ||| GPUTextureUsage.COPY_DST |||
    GPUTextureUsage.TEXTURE_BINDING

/-- `attachment` usage flags from `utils.ts`. -/
def attachmentUsage : Nat := basicUsage ||| GPUTextureUsage.RENDER_ATTACHMENT

/-- `storage` usage flags from `utils.ts`. -/
def storageUsage : Nat := basicUsage ||| GPUTextureUsage.STORAGE_BINDING

/-- `allFlags` usage flags from `utils.ts`. -/
def allFlagsUsage : Nat :=
  GPUTextureUsage.COPY_SRC ||| GPUTextureUsage.COPY_DST |||
    GPUTextureUsage.TEXTURE_BINDING ||| GPUTextureUsage.STORAGE_BINDING |||
    GPUTextureUsage.RENDER_ATTACHMENT

/-- `TextureFormatInfo` as `describeTextureFormat` actually returns it:
each field read out of the local `info` tuple, which is `undefined`
(`none`) when `info` was assigned the empty array. -/
structure TextureFormatInfo where
  requiredFeature : Option String
  sampleType : Option String
  usage : Option Nat
  blockDimensions : Option (Nat × Nat)
  blockSize : Option Nat
  components : Option Nat
deriving Repr, DecidableEq

/-- Outcome of the `switch (format)` in `describeTextureFormat`:
a full info tuple, the empty array (the `// TODO` cases `stencil8` and
`depth16unorm`), or no matching case (a string outside the
`GPUTextureFormat` union, so `info` stays `undefined`). -/
inductive FormatLookupOutcome where
  | info (requiredFeature : Option String) (sampleType : String) (usage : Nat)
      (blockDimensions : Nat × Nat) (blockSize : Nat) (components : Nat)
  | todo
  | unlisted
deriving Repr, DecidableEq

/-- The `switch (format)` of `describeTextureFormat` from `utils.ts`. -/
def textureFormatSwitch (format : String) : FormatLookupOutcome :=
  match format with
  | "r8unorm" => .info none "float" attachmentUsage (1, 1) 1 1
  | "r8snorm" => .info none "float" basicUsage (1, 1) 1 1
  | "r8uint" => .info none "uint" attachmentUsage (1, 1) 1 1
  | "r8sint" => .info none "sint" attachmentUsage (1, 1) 1 1
  | "r16uint" => .info none "uint" attachmentUsage (1, 1) 2 1
  | "r16sint" => .info none "sint" attachmentUsage (1, 1) 2 1
  | "r16float" => .info none "float" attachmentUsage (1, 1) 2 1
  | "rg8unorm" => .info none "float" attachmentUsage (1, 1) 2 2
  | "rg8snorm" => .info none "float" attachmentUsage (1, 1) 2 2
  | "rg8uint" => .info none "uint" attachmentUsage (1, 1) 2 2
  | "rg8sint" => .info none "sint" basicUsage (1, 1) 2 2
  | "r32uint" => .info none "uint" allFlagsUsage (1, 1) 4 1
  | "r32sint" => .info none "sint" allFlagsUsage (1, 1) 4 1
  | "r32float" => .info none "unfilterable-float" allFlagsUsage (1, 1) 4 1
  | "rg16uint" => .info none "uint" attachmentUsage (1, 1) 4 2
  | "rg16sint" => .info none "sint" attachmentUsage (1, 1) 4 2
  | "rg16float" => .info none "float" attachmentUsage (1, 1) 4 2
  | "rgba8unorm" => .info none "float" allFlagsUsage (1, 1) 4 4
  | "rgba8unorm-srgb" => .info none "float" attachmentUsage (1, 1) 4 4
  | "rgba8snorm" => .info none "float" storageUsage (1, 1) 4 4
  | "rgba8uint" => .info none "uint" allFlagsUsage (1, 1) 4 4
  | "rgba8sint" => .info none "sint" allFlagsUsage (1, 1) 4 4
  | "bgra8unorm" => .info none "float" attachmentUsage (1, 1) 4 4
  | "bgra8unorm-srgb" => .info none "float" attachmentUsage (1, 1) 4 4
  | "rgb9e5ufloat" => .info none "float" basicUsage (1, 1) 4 3
  | "rgb10a2unorm" => .info none "float" attachmentUsage (1, 1) 4 4
  | "rg11b10ufloat" => .info none "float" basicUsage (1, 1) 4 3
  | "rg32uint" => .info none "uint" allFlagsUsage (1, 1) 8 2
  | "rg32sint" => .info none "sint" allFlagsUsage (1, 1) 8 2
  | "rg32float" => .info none "unfilterable-float" allFlagsUsage (1, 1) 8 2
  | "rgba16uint" => .info none "uint" allFlagsUsage (1, 1) 8 4
  | "rgba16sint" => .info none "sint" allFlagsUsage (1, 1) 8 4
  | "rgba16float" => .info none "float" allFlagsUsage (1, 1) 8 4
  | "rgba32uint" => .info none "uint" allFlagsUsage (1, 1) 16 4
  | "rgba32sint" => .info none "sint" allFlagsUsage (1, 1) 16 4
  | "rgba32float" => .info none "float" allFlagsUsage (1, 1) 16 4
  | "stencil8" => .todo
  | "depth16unorm" => .todo
  | "depth24plus" => .info none "depth" attachmentUsage (1, 1) 4 1
  | "depth24plus-stencil8" => .info none "depth" attachmentUsage (1, 1) 4 2
  | "depth32float" => .info none "depth" attachmentUsage (1, 1) 4 1
  | "depth32float-stencil8" =>
    .info (some "depth32float-stencil8") "depth" attachmentUsage (1, 1) 4 2
  | "bc1-rgba-unorm" =>
    .info (some "texture-compression-bc") "float" basicUsage (4, 4) 8 4
  | "bc1-rgba-unorm-srgb" =>
    .info (some "texture-compression-bc") "float" basicUsage (4, 4) 8 4
  | "bc2-rgba-unorm" =>
    .info (some "texture-compression-bc") "float" basicUsage (4, 4) 16 4
  | "bc2-rgba-unorm-srgb" =>
    .info (some "texture-compression-bc") "float" basicUsage (4, 4) 16 4
  | "bc3-rgba-unorm" =>
    .info (some "texture-compression-bc") "float" basicUsage (4, 4) 16 4
  | "bc3-rgba-unorm-srgb" =>
    .info (some "texture-compression-bc") "float" basicUsage (4, 4) 16 4
  | "bc4-r-unorm" =>
    .info (some "texture-compression-bc") "float" basicUsage (4, 4) 8 1
  | "bc4-r-snorm" =>
    .info (some "texture-compression-bc") "float" basicUsage (4, 4) 8 1
  | "bc5-rg-unorm" =>
    .info (some "texture-compression-bc") "float" basicUsage (4, 4) 16 2
  | "bc5-rg-snorm" =>
    .info (some "texture-compression-bc") "float" basicUsage (4, 4) 16 2
  | "bc6h-rgb-ufloat" =>
    .info (some "texture-compression-bc") "float" basicUsage (4, 4) 16 3
  | "bc6h-rgb-float" =>
    .info (some "texture-compression-bc") "float" basicUsage (4, 4) 16 3
  | "bc7-rgba-unorm" =>
    .info (some "texture-compression-bc") "float" basicUsage (4, 4) 16 4
  | "bc7-rgba-unorm-srgb" =>
    .info (some "texture-compression-bc") "float" basicUsage (4, 4) 16 4
  | "etc2-rgb8unorm" =>
    .info (some "texture-compression-etc2") "float" basicUsage (4, 4) 8 3
  | "etc2-rgb8unorm-srgb" =>
    .info (some "texture-compression-etc2") "float" basicUsage (4, 4) 8 3
  | "etc2-rgb8a1unorm" =>
    .info (some "texture-compression-etc2") "float" basicUsage (4, 4) 8 4
  | "etc2-rgb8a1unorm-srgb" =>
    .info (some "texture-compression-etc2") "float" basicUsage (4, 4) 8 4
  | "etc2-rgba8unorm" =>
    .info (some "texture-compression-etc2") "float" basicUsage (4, 4) 16 4
  | "etc2-rgba8unorm-srgb" =>
    .info (some "texture-compression-etc2") "float" basicUsage (4, 4) 16 4
  | "eac-r11unorm" =>
    .info (some "texture-compression-etc2") "float" basicUsage (4, 4) 8 1
  | "eac-r11snorm" =>
    .info (some "texture-compression-etc2") "float" basicUsage (4, 4) 8 1
  | "eac-rg11unorm" =>
    .info (some "texture-compression-etc2") "float" basicUsage (4, 4) 16 2
  | "eac-rg11snorm" =>
    .info (some "texture-compression-etc2") "float" basicUsage (4, 4) 16 2
  | "astc-4x4-unorm" =>
    .info (some "texture-compression-astc") "float" basicUsage (4, 4) 16 4
  | "astc-4x4-unorm-srgb" =>
    .info (some "texture-compression-astc") "float" basicUsage (4, 4) 16 4
  | "astc-5x4-unorm" =>
    .info (some "texture-compression-astc") "float" basicUsage (5, 4) 16 4
  | "astc-5x4-unorm-srgb" =>
    .info (some "texture-compression-astc") "float" basicUsage (5, 4) 16 4
  | "astc-5x5-unorm" =>
    .info (some "texture-compression-astc") "float" basicUsage (5, 5) 16 4
  | "astc-5x5-unorm-srgb" =>
    .info (some "texture-compression-astc") "float" basicUsage (5, 5) 16 4
  | "astc-6x5-unorm" =>
    .info (some "texture-compression-astc") "float" basicUsage (6, 5) 16 4
  | "astc-6x5-unorm-srgb" =>
    .info (some "texture-compression-astc") "float" basicUsage (6, 5) 16 4
  | "astc-6x6-unorm" =>
    .info (some "texture-compression-astc") "float" basicUsage (6, 6) 16 4
  | "astc-6x6-unorm-srgb" =>
    .info (some "texture-compression-astc") "float" basicUsage (6, 6) 16 4
  | "astc-8x5-unorm" =>
    .info (some "texture-compression-astc") "float" basicUsage (8, 5) 16 4
  | "astc-8x5-unorm-srgb" =>
    .info (some "texture-compression-astc") "float" basicUsage (8, 5) 16 4
  | "astc-8x6-unorm" =>
    .info (some "texture-compression-astc") "float" basicUsage (8, 6) 16 4
  | "astc-8x6-unorm-srgb" =>
    .info (some "texture-compression-astc") "float" basicUsage (8, 6) 16 4
  | "astc-8x8-unorm" =>
    .info (some "texture-compression-astc") "float" basicUsage (8, 8) 16 4
  | "astc-8x8-unorm-srgb" =>
    .info (some "texture-compression-astc") "float" basicUsage (8, 8) 16 4
  | "astc-10x5-unorm" =>
    .info (some "texture-compression-astc") "float" basicUsage (10, 5) 16 4
  | "astc-10x5-unorm-srgb" =>
    .info (some "texture-compression-astc") "float" basicUsage (10, 5) 16 4
  | "astc-10x6-unorm" =>
    .info (some "texture-compression-astc") "float" basicUsage (10, 6) 16 4
  | "astc-10x6-unorm-srgb" =>
    .info (some "texture-compression-astc") "float" basicUsage (10, 6) 16 4
  | "astc-10x8-unorm" =>
    .info (some "texture-compression-astc") "float" basicUsage (10, 8) 16 4
  | "astc-10x8-unorm-srgb" =>
    .info (some "texture-compression-astc") "float" basicUsage (10, 8) 16 4
  | "astc-10x10-unorm" =>
    .info (some "texture-compression-astc") "float" basicUsage (10, 10) 16 4
  | "astc-10x10-unorm-srgb" =>
    .info (some "texture-compression-astc") "float" basicUsage (10, 10) 16 4
  | "astc-12x10-unorm" =>
    .info (some "texture-compression-astc") "float" basicUsage (12, 10) 16 4
  | "astc-12x10-unorm-srgb" =>
    .info (some "texture-compression-astc") "float" basicUsage (12, 10) 16 4
  | "astc-12x12-unorm" =>
    .info (some "texture-compression-astc") "float" basicUsage (12, 12) 16 4
  | "astc-12x12-unorm-srgb" =>
    .info (some "texture-compression-astc") "float" basicUsage (12, 12) 16 4
  | _ => .unlisted

/-- `describeTextureFormat` from `utils.ts`. In the `todo` case the return
statement indexes into the empty array, so every field of the returned
record is `undefined` (the `!` assertions are erased at runtime and nothing
throws); in the `unlisted` case `info` itself is `undefined` and `info[0]`
throws, modelled as `none`. -/
def describeTextureFormat (format : String) : Option TextureFormatInfo :=
  match textureFormatSwitch format with
  | .info rf st u bd bs c =>
    some { requiredFeature := rf, sampleType := some st, usage := some u
           blockDimensions := some bd, blockSize := some bs
           components := some c }
  | .todo =>
    some { requiredFeature := none, sampleType := none, usage := none
           blockDimensions := none, blockSize := none, components := none }
  | .unlisted => none

/-- `normalizeExtent3D` from `utils.ts`. -/
def normalizeExtent3D (size : GPUExtent3D) : GPUExtent3DDict :=
  match size with
  | .arr w h d => { width := w, height := h, depthOrArrayLayers := d }
  | .dict e => e

/-- `extent3DPhysicalSize` from `utils.ts`. Destructuring
`describeTextureFormat(format).blockDimensions` throws when the format has
no info tuple, hence the `Option` result. Block dimensions in the table
are at least 1, so `w + blockWidth - 1` never truncates and
`Math.floor` of the JS division is `Nat` division. -/
def extent3DPhysicalSize (size : GPUExtent3D) (format : String) :
    Option GPUExtent3DDict :=
  match (describeTextureFormat format).bind TextureFormatInfo.blockDimensions with
  | none => none
  | some (blockWidth, blockHeight) =>
    let nSize := normalizeExtent3D size
    let width := (nSize.width + blockWidth - 1) / blockWidth * blockWidth
    let height := (nSize.height.getD 1 + blockHeight - 1) / blockHeight * blockHeight
    some { width := width, height := some height
           depthOrArrayLayers := nSize.depthOrArrayLayers }

/-- JS `x >> level` for a non-negative left operand below `2^31` (the only
values that occur here): the shift count is reduced modulo 32. -/
def jsShiftRight (x level : Nat) : Nat := x >>> (level % 32)

/-- `extent3DMipLevelSize` from `utils.ts`, with its `height`/`width`
fields computed exactly as in the source (the returned `height` is derived
from the base `width` and vice versa). -/
def extent3DMipLevelSize (size : GPUExtent3D) (level : Nat) (is3D : Bool) :
    GPUExtent3DDict :=
  let nSize := normalizeExtent3D size
  { height := some (max 1 (jsShiftRight nSize.width level))
    width := max 1 (jsShiftRight (nSize.height.getD 1) level)
    depthOrArrayLayers := some
      (if is3D then max 1 (jsShiftRight (nSize.depthOrArrayLayers.getD 1) level)
       else nSize.depthOrArrayLayers.getD 1) }

/-- `textureMipLevelSize` from `utils.ts`. -/
def textureMipLevelSize (descriptor : GPUTextureDescriptor) (level : Nat) :
    Option GPUExtent3DDict :=
  if descriptor.mipLevelCount.getD 1 ≤ level then none
  else
    some (extent3DMipLevelSize descriptor.size level
      (decide (descriptor.dimension = some GPUTextureDimension.d3)))

/-- One upload region emitted by the loop body of `createTextureWithData`:
the arguments of the `device.queue.writeTexture` call at that iteration. -/
structure MipLevelRegion where
  layer : Nat
  mip : Nat
  physicalWidth : Nat
  physicalHeight : Nat
  bytesPerRow : Nat
  rowsPerImage : Nat
  offset : Nat
  dataSize : Nat
deriving Repr, DecidableEq

/-- The (layer, mip) pairs visited by the nested loops of
`createTextureWithData`: layers ascending in the outer loop, mip levels
ascending in the inner loop. -/
def planPairs (layerIterations mipLevelCount : Nat) : List (Nat × Nat) :=
  (List.range layerIterations).flatMap fun layer =>
    (List.range mipLevelCount).map fun mip => (layer, mip)

/-- The loop body of `createTextureWithData` from `utils.ts`, iterated over
the remaining (layer, mip) pairs while threading `binaryOffset`. The `!`
on `textureMipLevelSize` is `Option.get!`; `extent3DPhysicalSize` throwing
(block dimensions `undefined`) makes the whole call throw (`none`), as do
the reads `formatInfo.blockDimensions[0]` and the arithmetic on
`formatInfo.blockSize` when those fields are `undefined`. -/
def createTextureWithDataGo (descriptor : GPUTextureDescriptor)
    (formatInfo : TextureFormatInfo) :
    List (Nat × Nat) → Nat → Option (List MipLevelRegion × Nat)
  | [], binaryOffset => some ([], binaryOffset)
  | (layer, mip) :: rest, binaryOffset =>
    let mipSize0 := (textureMipLevelSize descriptor mip).get!
    let mipSize :=
      if descriptor.dimension ≠ some GPUTextureDimension.d3 then
        { mipSize0 with depthOrArrayLayers := some 1 }
      else mipSize0
    match extent3DPhysicalSize (.dict mipSize) descriptor.format with
    | none => none
    | some mipPhysical =>
      match formatInfo.blockDimensions, formatInfo.blockSize with
      | some (bw, bh), some blockSize =>
        let widthBlocks := mipPhysical.width / bw
        let heightBlocks := mipPhysical.height.get! / bh
        let bytesPerRow := widthBlocks * blockSize
        let dataSize := bytesPerRow * heightBlocks * mipSize.depthOrArrayLayers.get!
        let endOffset := binaryOffset + dataSize
        match createTextureWithDataGo descriptor formatInfo rest endOffset with
        | none => none
        | some (regions, finalOffset) =>
          some ({ layer := layer, mip := mip
                  physicalWidth := mipPhysical.width
                  physicalHeight := mipPhysical.height.get!
                  bytesPerRow := bytesPerRow
                  rowsPerImage := heightBlocks
                  offset := binaryOffset
                  dataSize := dataSize } :: regions, finalOffset)
      | _, _ => none

/-- The pure plan of `createTextureWithData` from `utils.ts`: the list of
`writeTexture` regions it emits (in loop order) together with the final
`binaryOffset`. A format whose `describeTextureFormat` throws makes the
whole call throw (`none`); the data blob itself does not influence the
region layout (`subarray` only slices it). -/
def createTextureWithDataPlan (descriptor : GPUTextureDescriptor) :
    Option (List MipLevelRegion × Nat) :=
  match describeTextureFormat descriptor.format with
  | none => none
  | some formatInfo =>
    let layerIterations := textureDimensionArrayLayerCount descriptor
    createTextureWithDataGo descriptor formatInfo
      (planPairs layerIterations (descriptor.mipLevelCount.getD 1)) 0

/-- Modelled from the claim's round-trip construct: lay the tightly packed
row data out with each row followed by arbitrary fill bytes up to the
padded stride. -/
def padRows (data : List Nat) (unpadded : Nat) (fill : Nat → List Nat)
    (height : Nat) : List Nat :=
  (List.range height).flatMap fun i =>
    (data.drop (i * unpadded)).take unpadded ++ fill i

/-- C1: the claim says the mip-level size has `width` derived from the base
width and `height` from the base height. The code instead swaps them: at
base size 8x2, level 1, `extent3DMipLevelSize` returns width 1 (from the
base height) and height 4 (from the base width), while the claimed width
is `max 1 (8 >>> 1) = 4`. The `depthOrArrayLayers` handling matches the
claim (unchanged when `is3D` is false). -/
theorem extent3DMipLevelSize_swaps_at_failing_input :
    extent3DMipLevelSize
        (.dict { width := 8, height := some 2, depthOrArrayLayers := some 1 })
        1 false =
      { width := 1, height := some 4, depthOrArrayLayers := some 1 } ∧
    (1 : Nat) ≠ max 1 (8 >>> 1) ∧ (4 : Nat) ≠ max 1 (2 >>> 1) := by
  decide

/-- C4: `getRowPadding` returns `unpadded = width * 4` and `padded` equal
to `unpadded` plus the double-mod padding term, which is the least multiple
of 256 at or above `unpadded`; width 0 gives 0/0, width 100 gives 400/512,
width 64 gives 256/256. -/
theorem getRowPadding_spec (w : Nat) :
    (getRowPadding w).unpadded = w * 4 ∧
    (getRowPadding w).padded =
      (getRowPadding w).unpadded +
        ((256 - (getRowPadding w).unpadded % 256) % 256) ∧
    (getRowPadding w).padded % 256 = 0 ∧
    (getRowPadding w).unpadded ≤ (getRowPadding w).padded ∧
    (getRowPadding w).padded < (getRowPadding w).unpadded + 256 ∧
    ((getRowPadding w).unpadded % 256 = 0 →
      (getRowPadding w).padded = (getRowPadding w).unpadded) ∧
    (∀ m, 256 ∣ m → (getRowPadding w).unpadded ≤ m →
      (getRowPadding w).padded ≤ m) ∧
    getRowPadding 0 = { unpadded := 0, padded := 0 } ∧
    getRowPadding 100 = { unpadded := 400, padded := 512 } ∧
    getRowPadding 64 = { unpadded := 256, padded := 256 } := by
  have h1 : (getRowPadding w).unpadded = w * 4 := rfl
  have h2 : (getRowPadding w).padded = w * 4 + ((256 - (w * 4) % 256) % 256) := rfl
  refine ⟨h1, by rw [h2, h1], ?_, ?_, ?_, ?_, ?_, by decide, by decide, by decide⟩
  · rw [h2]; omega
  · rw [h1, h2]; omega
  · rw [h1, h2]; omega
  · intro h; rw [h1] at h ⊢; rw [h2]; omega
  · intro m hm hle; rw [h1] at hle; rw [h2]; omega

/-- Witness for C4 at width 100: the padded stride is 256-aligned, and the
minimality clause applied at the multiple 512 bounds it by 512. -/
theorem getRowPadding_spec_witness :
    (getRowPadding 100).padded % 256 = 0 ∧ (getRowPadding 100).padded ≤ 512 :=
  ⟨(getRowPadding_spec 100).2.2.1,
   (getRowPadding_spec 100).2.2.2.2.2.2.1 512 (by decide) (by decide)⟩

/-- C8: the capture plan allocates exactly `padded * height` bytes for the
readback buffer, creates the texture at the requested extent, and the copy
command uses `bytesPerRow = padded`, `rowsPerImage = 0`, and the requested
extent. -/
theorem capturePlan_spec (dims : Dimensions) :
    (createCapture dims).outputBufferSize =
      (getRowPadding dims.width).padded * dims.height ∧
    (createCapture dims).textureWidth = dims.width ∧
    (createCapture dims).textureHeight = dims.height ∧
    (copyToBuffer dims).bytesPerRow = (getRowPadding dims.width).padded ∧
    (copyToBuffer dims).rowsPerImage = 0 ∧
    (copyToBuffer dims).extent = dims :=
  ⟨rfl, rfl, rfl, rfl, rfl, rfl⟩

/-- The C6 scenario descriptor: `bc1-rgba-unorm` (block 4x4, 8 bytes per
block), base size 128x128, two mip levels, one array layer. -/
def c6Descriptor : GPUTextureDescriptor :=
  { size := .dict { width := 128, height := some 128, depthOrArrayLayers := none }
    mipLevelCount := some 2
    dimension := none
    format := "bc1-rgba-unorm" }

/-- C6 counterexample: the claimed regions (lengths 32768 and 8192, second
offset 32768) are not what the layout computation produces. -/
theorem createTextureWithDataPlan_c6_counterexample :
    (createTextureWithDataPlan c6Descriptor).map
        (fun rt => rt.1.map fun r =>
          (r.physicalWidth, r.physicalHeight, r.bytesPerRow, r.offset,
            r.dataSize)) ≠
      some [(128, 128, 256, 0, 32768), (64, 64, 128, 32768, 8192)] := by
  decide

/-- C6 amended: the two regions are level 0 with physical size 128x128,
bytesPerRow 256, offset 0, length `bytesPerRow * heightBlocks = 256 * 32 =
8192`, and level 1 with physical size 64x64, bytesPerRow 128, offset 8192,
length 2048. -/
theorem createTextureWithDataPlan_c6_amended :
    (createTextureWithDataPlan c6Descriptor).map
        (fun rt => rt.1.map fun r =>
          (r.physicalWidth, r.physicalHeight, r.bytesPerRow, r.offset,
            r.dataSize)) =
      some [(128, 128, 256, 0, 8192), (64, 64, 128, 8192, 2048)] := by
  decide

set_option maxRecDepth 8192 in
/-- C7: on both precondition violations named by the claim the code is
silent instead of failing fast. `describeTextureFormat "stencil8"` returns
a record whose every field is `undefined`, and the `createPng` unpacking
loop run on a source buffer of 256 bytes (shorter than the required
`padded * height = 512`) silently leaves the second output row as zero
fill instead of raising an error. -/
theorem layoutModule_silent_on_precondition_violation :
    describeTextureFormat "stencil8" =
      some { requiredFeature := none, sampleType := none, usage := none
             blockDimensions := none, blockSize := none, components := none } ∧
    (List.replicate 256 9).length < (getRowPadding 1).padded * 2 ∧
    createPngUnpack (List.replicate 256 9) { width := 1, height := 2 } =
      [9, 9, 9, 9, 0, 0, 0, 0] := by
  decide

/-- Bridge for the JS bit trick in `createBufferInit`: on the 32-bit range,
masking with `~3` (unsigned `0xFFFFFFFC`) clears the two low bits, i.e.
rounds down to a multiple of 4. -/
theorem land_mask32_eq_div_mul (m : Nat) (hm : m < 4294967296) :
    Nat.land m 0xFFFFFFFC = m / 4 * 4 := by
  have hmask : (0xFFFFFFFC : Nat) = (2 ^ 30 - 1) <<< 2 := by decide
  have hdiv : m / 4 * 4 = (m >>> 2) <<< 2 := by
    rw [Nat.shiftRight_eq_div_pow, Nat.shiftLeft_eq]
  rw [hmask, hdiv]
  apply Nat.eq_of_testBit_eq
  intro i
  rw [show Nat.land m ((2 ^ 30 - 1) <<< 2) = m &&& ((2 ^ 30 - 1) <<< 2) from rfl]
  simp only [Nat.testBit_land, Nat.testBit_shiftLeft, Nat.testBit_shiftRight,
    Nat.testBit_two_pow_sub_one]
  by_cases h2 : 2 ≤ i
  · have hi : 2 + (i - 2) = i := by omega
    rw [hi]
    by_cases h32 : i < 32
    · have hd : i - 2 < 30 := by omega
      simp [h2, hd]
    · have hfalse : Nat.testBit m i = false := by
        apply Nat.testBit_lt_two_pow
        calc m < 4294967296 := hm
          _ = 2 ^ 32 := by norm_num
          _ ≤ 2 ^ i := Nat.pow_le_pow_right (by norm_num) (by omega)
      simp [hfalse, h2]
  · simp [h2]

/-- C5: for source byte lengths on the JS `ArrayBuffer` range, the
allocation size of `createBufferInit` is `max (roundUpToMultiple n 4) 4`,
hence at least 4, a multiple of 4, at least `n`, below `n + 4` once
`n ≥ 4`; 0 maps to 4 and 14 to 16; and the source bytes sit at offset 0 of
the zero-filled allocation. -/
theorem createBufferInit_spec (n : Nat) (hn : n < 2147483648) :
    createBufferInitPaddedSize n = max ((n + 3) / 4 * 4) 4 ∧
    4 ≤ createBufferInitPaddedSize n ∧
    createBufferInitPaddedSize n % 4 = 0 ∧
    n ≤ createBufferInitPaddedSize n ∧
    (4 ≤ n → createBufferInitPaddedSize n < n + 4) ∧
    createBufferInitPaddedSize 0 = 4 ∧
    createBufferInitPaddedSize 14 = 16 ∧
    ∀ contents : List Nat, contents.length = n →
      (createBufferInit contents).size = createBufferInitPaddedSize n ∧
      (createBufferInit contents).mappedContents.take n = contents ∧
      (createBufferInit contents).mappedContents.length =
        createBufferInitPaddedSize n := by
  have hkey : createBufferInitPaddedSize n = max ((n + 3) / 4 * 4) 4 := by
    show max (jsAndNotAlignMask (n + (4 - 1))) 4 = max ((n + 3) / 4 * 4) 4
    rw [show jsAndNotAlignMask (n + (4 - 1)) = Nat.land (n + 3) 0xFFFFFFFC from rfl,
      land_mask32_eq_div_mul (n + 3) (by omega)]
  have hval : createBufferInitPaddedSize n =
      if (n + 3) / 4 * 4 ≤ 4 then 4 else (n + 3) / 4 * 4 := by
    rw [hkey, Nat.max_def]
  refine ⟨hkey, ?_, ?_, ?_, ?_, by decide, by decide, ?_⟩
  · rw [hval]; split <;> omega
  · rw [hval]; split <;> omega
  · rw [hval]; split <;> omega
  · intro h4; rw [hval]; split <;> omega
  · intro contents hc
    have hsize : (createBufferInit contents).size = createBufferInitPaddedSize n := by
      show createBufferInitPaddedSize contents.length = createBufferInitPaddedSize n
      rw [hc]
    have hn4 : n ≤ createBufferInitPaddedSize n := by rw [hval]; split <;> omega
    refine ⟨hsize, ?_, ?_⟩
    · show (typedArraySet
        (List.replicate (createBufferInitPaddedSize contents.length) 0) contents 0).take n
        = contents
      unfold typedArraySet
      rw [hc]
      simp only [List.take_zero, List.nil_append, Nat.zero_add]
      rw [List.take_append_of_le_length (by omega), List.take_of_length_le (by omega)]
    · show (typedArraySet
        (List.replicate (createBufferInitPaddedSize contents.length) 0) contents 0).length
        = createBufferInitPaddedSize n
      unfold typedArraySet
      rw [hc]
      simp only [List.length_append, List.length_take, List.length_drop,
        List.length_replicate, List.take_zero, List.length_nil]
      omega

/-- Witness for C5 at 14 source bytes: the allocation is 16 bytes and the
first 14 bytes of the mapped range are the source bytes. -/
theorem createBufferInit_spec_witness :
    createBufferInitPaddedSize 14 = 16 ∧
    (createBufferInit [5, 5, 5, 5, 5, 5, 5, 5, 5, 5, 5, 5, 5, 5]).mappedContents.take 14 =
      [5, 5, 5, 5, 5, 5, 5, 5, 5, 5, 5, 5, 5, 5] := by
  obtain ⟨-, -, -, -, -, -, h14, hall⟩ := createBufferInit_spec 14 (by norm_num)
  exact ⟨h14, (hall _ (by decide)).2.1⟩

/-- C9: for every extent and every format with an info tuple in the format
table, `extent3DPhysicalSize` rounds width and height up to the nearest
multiple of the format's block dimensions via
`floor((d + block - 1) / block) * block`, passes `depthOrArrayLayers`
through unchanged, and for 1x1 blocks leaves the extent unchanged. -/
theorem extent3DPhysicalSize_spec (size : GPUExtent3D) (format : String)
    (rf : Option String) (st : String) (u bw bh bs c : Nat)
    (hfmt : textureFormatSwitch format = .info rf st u (bw, bh) bs c) :
    extent3DPhysicalSize size format =
      some { width := ((normalizeExtent3D size).width + bw - 1) / bw * bw
             height := some
               (((normalizeExtent3D size).height.getD 1 + bh - 1) / bh * bh)
             depthOrArrayLayers := (normalizeExtent3D size).depthOrArrayLayers } ∧
    (bw = 1 → bh = 1 →
      extent3DPhysicalSize size format =
        some { width := (normalizeExtent3D size).width
               height := some ((normalizeExtent3D size).height.getD 1)
               depthOrArrayLayers := (normalizeExtent3D size).depthOrArrayLayers }) := by
  have hdesc : describeTextureFormat format =
      some { requiredFeature := rf, sampleType := some st, usage := some u
             blockDimensions := some (bw, bh), blockSize := some bs
             components := some c } := by
    unfold describeTextureFormat
    rw [hfmt]
  have hmain : extent3DPhysicalSize size format =
      some { width := ((normalizeExtent3D size).width + bw - 1) / bw * bw
             height := some
               (((normalizeExtent3D size).height.getD 1 + bh - 1) / bh * bh)
             depthOrArrayLayers := (normalizeExtent3D size).depthOrArrayLayers } := by
    unfold extent3DPhysicalSize
    rw [hdesc]
    rfl
  refine ⟨hmain, ?_⟩
  intro hbw hbh
  subst hbw
  subst hbh
  rw [hmain]
  simp

/-- Witness for C9: `bc1-rgba-unorm` (4x4 blocks) on a 5x7x2 extent rounds
up to 8x8 and keeps the two layers. -/
theorem extent3DPhysicalSize_spec_witness :
    extent3DPhysicalSize
        (.dict { width := 5, height := some 7, depthOrArrayLayers := some 2 })
        "bc1-rgba-unorm" =
      some { width := 8, height := some 8, depthOrArrayLayers := some 2 } := by
  rw [(extent3DPhysicalSize_spec
    (.dict { width := 5, height := some 7, depthOrArrayLayers := some 2 })
    "bc1-rgba-unorm" (some "texture-compression-bc") "float" basicUsage
    4 4 8 4 rfl).1]
  rfl

/-- C10: `textureMipLevelSize` returns `none` exactly when the level is at
least `mipLevelCount ?? 1`, returns the `extent3DMipLevelSize` value below
that bound, and is in particular defined (`isSome`) at every (layer, mip)
pair the `createTextureWithData` loops visit — so the non-null assertion
on its result never fails. -/
theorem textureMipLevelSize_spec (descriptor : GPUTextureDescriptor) (level : Nat) :
    (textureMipLevelSize descriptor level = none ↔
      descriptor.mipLevelCount.getD 1 ≤ level) ∧
    (level < descriptor.mipLevelCount.getD 1 →
      textureMipLevelSize descriptor level =
        some (extent3DMipLevelSize descriptor.size level
          (decide (descriptor.dimension = some GPUTextureDimension.d3)))) ∧
    (∀ layer mip : Nat,
      (layer, mip) ∈ planPairs (textureDimensionArrayLayerCount descriptor)
          (descriptor.mipLevelCount.getD 1) →
      (textureMipLevelSize descriptor mip).isSome) := by
  refine ⟨?_, ?_, ?_⟩
  · unfold textureMipLevelSize
    by_cases h : descriptor.mipLevelCount.getD 1 ≤ level <;> simp [h]
  · intro h
    unfold textureMipLevelSize
    rw [if_neg (by omega)]
  · intro layer mip hmem
    have hmip : mip < descriptor.mipLevelCount.getD 1 := by
      simp only [planPairs, List.mem_flatMap, List.mem_map, List.mem_range] at hmem
      obtain ⟨a, -, b, hb, hab⟩ := hmem
      have : b = mip := congrArg Prod.snd hab
      omega
    unfold textureMipLevelSize
    rw [if_neg (by omega)]
    rfl

/-- Witness for C10: a three-level 2D descriptor at level 1 yields the
mip-level extent. -/
theorem textureMipLevelSize_spec_witness :
    textureMipLevelSize
        { size := .dict { width := 4, height := some 4, depthOrArrayLayers := none }
          mipLevelCount := some 3, dimension := none, format := "rgba8unorm" } 1 =
      some (extent3DMipLevelSize
        (.dict { width := 4, height := some 4, depthOrArrayLayers := none }) 1
        (decide ((none : Option GPUTextureDimension) = some GPUTextureDimension.d3))) := by
  exact (textureMipLevelSize_spec
    { size := .dict { width := 4, height := some 4, depthOrArrayLayers := none }
      mipLevelCount := some 3, dimension := none, format := "rgba8unorm" } 1).2.1
    (by decide)

/-- The nested loops of `createTextureWithData` visit `layers * mips`
(layer, mip) pairs. -/
theorem planPairs_length (layers mips : Nat) :
    (planPairs layers mips).length = layers * mips := by
  induction layers with
  | zero => simp [planPairs]
  | succ L ih =>
    rw [planPairs, List.range_succ, List.flatMap_append] at *
    simp only [List.length_append, List.flatMap_cons, List.flatMap_nil,
      List.append_nil, List.length_map, List.length_range] at *
    rw [ih]
    ring

/-- Offset bookkeeping of the `createTextureWithData` loop body: from any
starting `binaryOffset` it emits one region per remaining (layer, mip)
pair, in order, each region's offset being the running total of the
previously emitted regions' lengths, and the final offset being the start
plus the sum of all lengths. -/
theorem createTextureWithDataGo_spec (d : GPUTextureDescriptor)
    (fi : TextureFormatInfo) (bw bh bs : Nat)
    (hbd : fi.blockDimensions = some (bw, bh)) (hbs : fi.blockSize = some bs)
    (hphys : ∀ e : GPUExtent3DDict,
      (extent3DPhysicalSize (.dict e) d.format).isSome) :
    ∀ (pairs : List (Nat × Nat)) (off : Nat),
      ∃ rs t, createTextureWithDataGo d fi pairs off = some (rs, t) ∧
        rs.map (fun r => (r.layer, r.mip)) = pairs ∧
        t = off + (rs.map MipLevelRegion.dataSize).sum ∧
        ∀ k (hk : k < rs.length),
          (rs.get ⟨k, hk⟩).offset =
            off + ((rs.take k).map MipLevelRegion.dataSize).sum := by
  intro pairs
  induction pairs with
  | nil =>
    intro off
    refine ⟨[], off, rfl, rfl, by simp, ?_⟩
    intro k hk
    simp at hk
  | cons p rest ih =>
    intro off
    obtain ⟨layer, mip⟩ := p
    set mipSize0 := (textureMipLevelSize d mip).get! with hms0
    set mipSize :=
      if d.dimension ≠ some GPUTextureDimension.d3 then
        { mipSize0 with depthOrArrayLayers := some 1 }
      else mipSize0 with hms
    obtain ⟨mp, hmp⟩ := Option.isSome_iff_exists.mp (hphys mipSize)
    set dataSize := mp.width / bw * bs * (mp.height.get! / bh) *
      mipSize.depthOrArrayLayers.get! with hds
    obtain ⟨rs, t, hgo, hmap, ht, hoff⟩ := ih (off + dataSize)
    refine ⟨{ layer := layer, mip := mip
              physicalWidth := mp.width
              physicalHeight := mp.height.get!
              bytesPerRow := mp.width / bw * bs
              rowsPerImage := mp.height.get! / bh
              offset := off
              dataSize := dataSize } :: rs, t, ?_, ?_, ?_, ?_⟩
    · show createTextureWithDataGo d fi ((layer, mip) :: rest) off = _
      rw [createTextureWithDataGo]
      rw [← hms0, ← hms, hmp, hbd, hbs]
      dsimp only
      rw [← hds, hgo]
    · simp [hmap]
    · simp only [List.map_cons, List.sum_cons]
      omega
    · intro k hk
      cases k with
      | zero => simp
      | succ k =>
        simp only [List.get_cons_succ, List.take_succ_cons, List.map_cons,
          List.sum_cons]
        rw [hoff k (by simpa using hk)]
        omega

/-- C2: for every descriptor whose format has an info tuple in the format
table, `createTextureWithData` emits exactly
`arrayLayerCount * (mipLevelCount ?? 1)` upload regions, whose
(layer, mip) sequence is exactly the layer-major, mip-minor ascending
iteration order; each region's source byte offset is the sum of the
lengths of all previously emitted regions (starting from 0), so the
regions tile the consumed prefix contiguously, and the final consumed
offset equals the sum of all region lengths. Determinism and order
stability hold because `createTextureWithDataPlan` is a pure function of
the descriptor. -/
theorem createTextureWithDataPlan_spec (descriptor : GPUTextureDescriptor)
    (rf : Option String) (st : String) (u bw bh bs c : Nat)
    (hfmt : textureFormatSwitch descriptor.format = .info rf st u (bw, bh) bs c) :
    ∃ regions total,
      createTextureWithDataPlan descriptor = some (regions, total) ∧
      regions.length =
        textureDimensionArrayLayerCount descriptor *
          descriptor.mipLevelCount.getD 1 ∧
      regions.map (fun r => (r.layer, r.mip)) =
        planPairs (textureDimensionArrayLayerCount descriptor)
          (descriptor.mipLevelCount.getD 1) ∧
      (∀ k (hk : k < regions.length),
        (regions.get ⟨k, hk⟩).offset =
          ((regions.take k).map MipLevelRegion.dataSize).sum) ∧
      total = (regions.map MipLevelRegion.dataSize).sum := by
  have hdesc : describeTextureFormat descriptor.format =
      some { requiredFeature := rf, sampleType := some st, usage := some u
             blockDimensions := some (bw, bh), blockSize := some bs
             components := some c } := by
    unfold describeTextureFormat
    rw [hfmt]
  have hphys : ∀ e : GPUExtent3DDict,
      (extent3DPhysicalSize (.dict e) descriptor.format).isSome := by
    intro e
    unfold extent3DPhysicalSize
    rw [hdesc]
    rfl
  obtain ⟨rs, t, hgo, hmap, ht, hoff⟩ :=
    createTextureWithDataGo_spec descriptor
      { requiredFeature := rf, sampleType := some st, usage := some u
        blockDimensions := some (bw, bh), blockSize := some bs
        components := some c }
      bw bh bs rfl rfl hphys
      (planPairs (textureDimensionArrayLayerCount descriptor)
        (descriptor.mipLevelCount.getD 1)) 0
  refine ⟨rs, t, ?_, ?_, hmap, ?_, by simpa using ht⟩
  · unfold createTextureWithDataPlan
    rw [hdesc]
    exact hgo
  · have := congrArg List.length hmap
    simpa [planPairs_length] using this
  · intro k hk
    simpa using hoff k hk

/-- Witness for C2: an `rgba8unorm` 4x4 texture with 2 array layers and 2
mip levels yields 2 * 2 = 4 regions whose lengths sum to the consumed
offset. -/
theorem createTextureWithDataPlan_spec_witness :
    ∃ regions total,
      createTextureWithDataPlan
          { size := .dict { width := 4, height := some 4, depthOrArrayLayers := some 2 }
            mipLevelCount := some 2, dimension := none, format := "rgba8unorm" } =
        some (regions, total) ∧
      regions.length = 4 ∧ total = (regions.map MipLevelRegion.dataSize).sum := by
  obtain ⟨rs, t, h1, h2, -, -, h5⟩ :=
    createTextureWithDataPlan_spec
      { size := .dict { width := 4, height := some 4, depthOrArrayLayers := some 2 }
        mipLevelCount := some 2, dimension := none, format := "rgba8unorm" }
      none "float" allFlagsUsage 1 1 4 4 rfl
  exact ⟨rs, t, h1, by simpa using h2, h5⟩

/-- Length of flatMapping constant-length rows over `List.range`. -/
theorem length_flatMap_range_const (f : Nat → List Nat) (u k : Nat)
    (hf : ∀ i, i < k → (f i).length = u) :
    ((List.range k).flatMap f).length = k * u := by
  induction k with
  | zero => simp
  | succ k ih =>
    rw [List.range_succ, List.flatMap_append]
    simp only [List.flatMap_cons, List.flatMap_nil, List.append_nil,
      List.length_append]
    rw [ih (fun i hi => hf i (by omega)), hf k (by omega)]
    ring

/-- Extracting the `i`-th stride-`p` window of a concatenation of chunks
of length `p` yields the `i`-th chunk. -/
theorem flatten_drop_take (cs : List (List Nat)) (p : Nat)
    (hcs : ∀ c ∈ cs, c.length = p) :
    ∀ i (hi : i < cs.length),
      (cs.flatten.drop (i * p)).take p = cs.get ⟨i, hi⟩ := by
  induction cs with
  | nil =>
    intro i hi
    simp at hi
  | cons c cs ih =>
    intro i hi
    have hc : c.length = p := hcs c (by simp)
    cases i with
    | zero =>
      simp only [Nat.zero_mul, List.drop_zero, List.flatten_cons]
      rw [List.take_append_of_le_length (by omega), List.take_of_length_le (by omega)]
      rfl
    | succ i =>
      have hstep : (i + 1) * p = p + i * p := by ring
      rw [List.get_cons_succ, hstep, List.flatten_cons, ← List.drop_drop,
        List.drop_left' hc]
      exact ih (fun d hd => hcs d (by simp [hd])) i (by simpa using hi)

/-- Invariant of the `createPng` write loop: after writing the first `k`
rows (each of length `u`) at offsets `0, u, 2u, ...` into the zero-filled
output, the output is the concatenation of those rows followed by the
untouched zero tail. -/
theorem foldl_set_rows (slices : Nat → List Nat) (u h : Nat)
    (hlen : ∀ i, i < h → (slices i).length = u) :
    ∀ k, k ≤ h →
      (List.range k).foldl
          (fun out i => typedArraySet out (slices i) (i * u))
          (List.replicate (u * h) 0) =
        (List.range k).flatMap slices ++ List.replicate (u * (h - k)) 0 := by
  intro k
  induction k with
  | zero => simp
  | succ k ih =>
    intro hk
    have hA : ((List.range k).flatMap slices).length = k * u :=
      length_flatMap_range_const slices u k (fun i hi => hlen i (by omega))
    have hsk : (slices k).length = u := hlen k (by omega)
    rw [List.range_succ, List.foldl_append, List.foldl_cons, List.foldl_nil,
      ih (by omega), List.flatMap_append]
    simp only [List.flatMap_cons, List.flatMap_nil, List.append_nil]
    unfold typedArraySet
    have htake : (((List.range k).flatMap slices) ++
        List.replicate (u * (h - k)) 0).take (k * u) =
        (List.range k).flatMap slices := List.take_left' hA
    have hsplit : h - k = (h - (k + 1)) + 1 := by omega
    have hdrop : (((List.range k).flatMap slices) ++
        List.replicate (u * (h - k)) 0).drop (k * u + u) =
        List.replicate (u * (h - (k + 1))) 0 := by
      rw [← List.drop_drop, List.drop_left' hA, List.drop_replicate]
      congr 1
      rw [hsplit, Nat.mul_add, Nat.mul_one]
      omega
    rw [hsk, htake, hdrop, List.append_assoc]

/-- Cutting a list of length `u * h` into `h` rows of `u` and
concatenating them reproduces the list. -/
theorem chunks_reconstruct :
    ∀ (h : Nat) (data : List Nat) (u : Nat), data.length = u * h →
      (List.range h).flatMap (fun i => (data.drop (i * u)).take u) = data := by
  intro h
  induction h with
  | zero =>
    intro data u hdata
    have hnil : data = [] := List.eq_nil_of_length_eq_zero (by simpa using hdata)
    subst hnil
    simp
  | succ h ih =>
    intro data u hdata
    have hrange : List.range (h + 1) = 0 :: (List.range h).map (· + 1) := by
      simpa using List.range_succ_eq_map h
    rw [hrange, List.flatMap_cons]
    have hmapped : ((List.range h).map (· + 1)).flatMap
        (fun i => (data.drop (i * u)).take u) =
        (List.range h).flatMap (fun i => ((data.drop u).drop (i * u)).take u) := by
      rw [List.flatMap_map]
      congr 1
      funext i
      show (data.drop ((i + 1) * u)).take u = ((data.drop u).drop (i * u)).take u
      have hiu : (i + 1) * u = u + i * u := by ring
      rw [hiu, ← List.drop_drop]
    rw [hmapped, ih (data.drop u) u
      (by rw [List.length_drop, hdata, Nat.mul_succ, Nat.add_sub_cancel])]
    simp [List.take_append_drop]

/-- The `createPng` row loop run on padded row data: stripping each
padded row back to `u` bytes and writing them densely reconstructs the
tightly packed data, for any stride `p ≥ u` and any fill bytes. -/
theorem unpack_pad_general (u p h : Nat) (hup : u ≤ p) (data : List Nat)
    (fill : Nat → List Nat) (hdata : data.length = u * h)
    (hfill : ∀ i, i < h → (fill i).length = p - u) :
    (List.range h).foldl
        (fun out i => typedArraySet out
          ((((padRows data u fill h).drop (i * p)).take p).take u) (i * u))
        (List.replicate (u * h) 0) = data := by
  have hrowlen : ∀ i, i < h → ((data.drop (i * u)).take u).length = u := by
    intro i hi
    rw [List.length_take, List.length_drop, hdata]
    have hmul : i * u + u ≤ u * h := by
      calc i * u + u = (i + 1) * u := by ring
        _ ≤ h * u := Nat.mul_le_mul_right u (by omega)
        _ = u * h := by ring
    generalize hA : u * h = A at hmul ⊢
    generalize hB : i * u = B at hmul ⊢
    omega
  have hchunklen : ∀ cc ∈ (List.range h).map
      (fun i => (data.drop (i * u)).take u ++ fill i), cc.length = p := by
    intro cc hcc
    simp only [List.mem_map, List.mem_range] at hcc
    obtain ⟨i, hi, rfl⟩ := hcc
    rw [List.length_append, hrowlen i hi, hfill i hi]
    omega
  have hinput : padRows data u fill h =
      ((List.range h).map (fun i => (data.drop (i * u)).take u ++ fill i)).flatten := by
    rw [padRows, List.flatMap_def]
  have hslice : ∀ i, i < h →
      (((padRows data u fill h).drop (i * p)).take p).take u =
        (data.drop (i * u)).take u := by
    intro i hi
    rw [hinput, flatten_drop_take _ p hchunklen i (by simpa using hi)]
    rw [List.get_map]
    rw [List.get_range]
    rw [List.take_append_of_le_length (by rw [hrowlen i hi]),
      List.take_of_length_le (by rw [hrowlen i hi])]
  have hfold := foldl_set_rows
    (fun i => (((padRows data u fill h).drop (i * p)).take p).take u) u h
    (fun i hi => by
      show ((((padRows data u fill h).drop (i * p)).take p).take u).length = u
      rw [hslice i hi]
      exact hrowlen i hi) h le_rfl
  have hrows : (List.range h).flatMap
      (fun i => (((padRows data u fill h).drop (i * p)).take p).take u) ++
      List.replicate (u * (h - h)) 0 = data := by
    rw [Nat.sub_self, Nat.mul_zero, List.replicate_zero, List.append_nil]
    have hcongr : (List.range h).flatMap
        (fun i => (((padRows data u fill h).drop (i * p)).take p).take u) =
        (List.range h).flatMap (fun i => (data.drop (i * u)).take u) := by
      rw [List.flatMap_def, List.flatMap_def]
      congr 1
      apply List.map_congr_left
      intro a ha
      exact hslice a (by simpa using ha)
    rw [hcongr]
    exact chunks_reconstruct h data u hdata
  exact Eq.trans hfold hrows

/-- C3: round trip — for any tightly packed row data of length
`unpadded * height`, padding each row out to the padded stride with
arbitrary fill bytes and running the `createPng` unpacking loop
reconstructs the original data exactly. -/
theorem createPng_roundTrip (dims : Dimensions) (data : List Nat)
    (fill : Nat → List Nat)
    (hdata : data.length = (getRowPadding dims.width).unpadded * dims.height)
    (hfill : ∀ i, i < dims.height →
      (fill i).length =
        (getRowPadding dims.width).padded - (getRowPadding dims.width).unpadded) :
    createPngUnpack
        (padRows data (getRowPadding dims.width).unpadded fill dims.height)
        dims = data :=
  unpack_pad_general (getRowPadding dims.width).unpadded
    (getRowPadding dims.width).padded dims.height
    (Nat.le_add_right _ _) data fill hdata hfill

set_option maxRecDepth 8192 in
/-- Witness for C3 at width 1, height 2: two 4-byte rows padded to a
256-byte stride with fill byte 7 unpack to the original 8 bytes. -/
theorem createPng_roundTrip_witness :
    createPngUnpack
        (padRows [1, 2, 3, 4, 5, 6, 7, 8] 4 (fun _ => List.replicate 252 7) 2)
        { width := 1, height := 2 } = [1, 2, 3, 4, 5, 6, 7, 8] :=
  createPng_roundTrip { width := 1, height := 2 } [1, 2, 3, 4, 5, 6, 7, 8]
    (fun _ => List.replicate 252 7) (by decide)
    (fun i _ => by
      show (List.replicate 252 7).length =
        (getRowPadding 1).padded - (getRowPadding 1).unpadded
      decide)
